import Mathlib

/-!
Formal model of the fake MPU6050 dual-channel inertial sensor driver
(src/fake6050.c): the placement transform tables, the shared sample-rate
negotiation, the per-channel enable/disable state machine sharing one power
flag, the polling-timer state and the worker publication step.

Machine integers are modelled as Nat (for unsigned counters, with masking
where the C code casts to u8) and Int (for signed 16-bit axis values, with an
explicit two's-complement truncation toS16 where the C code assigns an int
expression to an s16 field).  Fallible C functions returning an int error
code are modelled as functions returning an Int paired with the post state.
-/

/-! ## Constants defined in src/fake6050.c -/

def MPU6050_ACCEL_MIN_POLL_INTERVAL_MS : ℕ := 10
def MPU6050_ACCEL_MAX_POLL_INTERVAL_MS : ℕ := 5000
def MPU6050_ACCEL_DEFAULT_POLL_INTERVAL_MS : ℕ := 200
def MPU6050_GYRO_MIN_POLL_INTERVAL_MS : ℕ := 10
def MPU6050_GYRO_MAX_POLL_INTERVAL_MS : ℕ := 5000
def MPU6050_GYRO_DEFAULT_POLL_INTERVAL_MS : ℕ := 200
def POLL_MS_100HZ : ℕ := 10
def MPU6050_AXIS_REMAP_TAB_SZ : ℕ := 8

/-- Linux error numbers used by the driver (returned negated). -/
def EINVAL : Int := 22

/-- Busy error number, returned negated as -EBUSY by the enable paths. -/
def EBUSY : Int := 16

def MSEC_PER_SEC : ℕ := 1000
def NSEC_PER_MSEC : ℕ := 1000000

/-- Modelled from the spec: the header fake6050.h included by src/fake6050.c is
not present under src/.  It supplies the low-pass-filter mode enumeration; the
spec names the two modes that select the no-DLPF formula (NoLpf = the
256HZ_NOLPF2 entry, first in the enum, and Reserved, last in the enum of 8
values), matching the standard MPU6050 register map. -/
def MPU_DLPF_256HZ_NOLPF2 : ℕ := 0

/-- Modelled from the spec: the Reserved low-pass-filter mode, last entry of
the 8-value DLPF enumeration in the missing header fake6050.h. -/
def MPU_DLPF_RESERVED : ℕ := 7

/-- Modelled from the spec: the 42Hz DLPF setting chosen by
mpu6050_init_config, an intermediate entry of the enumeration in the missing
header fake6050.h. -/
def MPU_DLPF_42HZ : ℕ := 3

/-- Modelled from the spec: output data rate with the DLPF enabled, from the
missing header fake6050.h.  The spec's round-trip property (a divisor step of
1 ms with DLPF, 1/8 ms without) fixes the standard MPU6050 value 1000 Hz. -/
def ODR_DLPF_ENA : ℕ := 1000

/-- Modelled from the spec: output data rate with the DLPF disabled, from the
missing header fake6050.h.  The spec models an internal 8x base rate in
no-DLPF mode, fixing the standard MPU6050 value 8000 Hz. -/
def ODR_DLPF_DIS : ℕ := 8000

/-- Modelled from the spec: clamp bounds for the effective interval, from the
missing header fake6050.h (standard MPU6050 driver values; the divisor is an
8-bit register, so with DLPF the interval is capped at 256 ms and without at
32 ms, with a 1 ms floor). -/
def DELAY_MS_MIN_DLPF : ℕ := 1

/-- Modelled from the spec: see DELAY_MS_MIN_DLPF. -/
def DELAY_MS_MAX_DLPF : ℕ := 256

/-- Modelled from the spec: see DELAY_MS_MIN_DLPF. -/
def DELAY_MS_MIN_NODLPF : ℕ := 1

/-- Modelled from the spec: see DELAY_MS_MIN_DLPF. -/
def DELAY_MS_MAX_NODLPF : ℕ := 32

/-- Modelled from the spec: initial FIFO rate used by mpu6050_init_config to
derive the initial divisor, from the missing header fake6050.h (standard
value 50 Hz). -/
def INIT_FIFO_RATE : ℕ := 50

/-- Modelled from the spec: low-power-accelerometer 5 Hz wakeup frequency
code, from the missing header fake6050.h; the spec treats the lpa_freq setter
as pure storage, so only the stored value matters, not its encoding. -/
def MPU6050_LPA_5HZ : ℕ := 1

/-! ## Placement transform (src/fake6050.c lines 243-298, 343-380) -/

/-- Truncation of a C int expression assigned to an s16 field:
two's-complement wrap-around into [-32768, 32767]. -/
def toS16 (v : Int) : Int := (v + 32768) % 65536 - 32768

/-- One row of a placement remap table: source axis index and sign for each
of the three target axes (struct sensor_axis_remap). -/
structure sensor_axis_remap where
  src_x : Fin 3
  src_y : Fin 3
  src_z : Fin 3
  sign_x : Int
  sign_y : Int
  sign_z : Int
deriving DecidableEq

/-- Source-axis selector of a remap row as a function on axis indices. -/
def sensor_axis_remap.src (r : sensor_axis_remap) : Fin 3 → Fin 3 :=
  ![r.src_x, r.src_y, r.src_z]

/-- Sign selector of a remap row as a function on axis indices. -/
def sensor_axis_remap.sign (r : sensor_axis_remap) : Fin 3 → Int :=
  ![r.sign_x, r.sign_y, r.sign_z]

/-- Accelerometer remap table mpu6050_accel_axis_remap_tab, rows P0-P7. -/
def mpu6050_accel_axis_remap_tab : Fin 8 → sensor_axis_remap :=
  ![⟨0, 1, 2,  1,  1,  1⟩,
    ⟨1, 0, 2,  1, -1,  1⟩,
    ⟨0, 1, 2, -1, -1,  1⟩,
    ⟨1, 0, 2, -1,  1,  1⟩,
    ⟨0, 1, 2, -1,  1, -1⟩,
    ⟨1, 0, 2, -1, -1, -1⟩,
    ⟨0, 1, 2,  1, -1, -1⟩,
    ⟨1, 0, 2,  1,  1, -1⟩]

/-- Gyroscope remap table mpu6050_gyro_axis_remap_tab, rows P0-P7. -/
def mpu6050_gyro_axis_remap_tab : Fin 8 → sensor_axis_remap :=
  ![⟨0, 1, 2, -1,  1, -1⟩,
    ⟨1, 0, 2, -1, -1, -1⟩,
    ⟨0, 1, 2,  1, -1, -1⟩,
    ⟨1, 0, 2,  1,  1, -1⟩,
    ⟨0, 1, 2,  1,  1,  1⟩,
    ⟨1, 0, 2,  1, -1,  1⟩,
    ⟨0, 1, 2, -1, -1,  1⟩,
    ⟨1, 0, 2, -1,  1,  1⟩]

/-- Latest raw axis reading (struct axis_data), s16 values as Int. -/
structure axis_data where
  x : Int
  y : Int
  z : Int
  rx : Int
  ry : Int
  rz : Int
deriving DecidableEq

/-- Table index for an in-range place value; the remap functions only use it
under the guard 0 < place < 8, where it equals place itself. -/
def remap_tab_index (place : Int) : Fin 8 :=
  ⟨place.toNat % 8, Nat.mod_lt _ (by norm_num)⟩

/-- mpu6050_remap_accel_data: place 0, negative or >= 8 is identity; otherwise
each target axis takes the table row's source axis value times its sign,
truncated by the s16 assignment. -/
def mpu6050_remap_accel_data (data : axis_data) (place : Int) : axis_data :=
  if place ≤ 0 ∨ 8 ≤ place then data
  else
    let remap := mpu6050_accel_axis_remap_tab (remap_tab_index place)
    let tmp : Fin 3 → Int := ![data.x, data.y, data.z]
    { data with
      x := toS16 (tmp (remap.src 0) * remap.sign 0),
      y := toS16 (tmp (remap.src 1) * remap.sign 1),
      z := toS16 (tmp (remap.src 2) * remap.sign 2) }

/-- mpu6050_remap_gyro_data, as mpu6050_remap_accel_data but on the rotation
axes with the gyroscope table. -/
def mpu6050_remap_gyro_data (data : axis_data) (place : Int) : axis_data :=
  if place ≤ 0 ∨ 8 ≤ place then data
  else
    let remap := mpu6050_gyro_axis_remap_tab (remap_tab_index place)
    let tmp : Fin 3 → Int := ![data.rx, data.ry, data.rz]
    { data with
      rx := toS16 (tmp (remap.src 0) * remap.sign 0),
      ry := toS16 (tmp (remap.src 1) * remap.sign 1),
      rz := toS16 (tmp (remap.src 2) * remap.sign 2) }

/-! ## Sensor state (struct mpu6050_sensor, the fields the modelled
operations read or write) -/

/-- Cached chip configuration (struct mpu_chip_config, from the missing
header; the fields below are the ones src/fake6050.c reads or writes in the
modelled operations — fsr, accel_fs, int_pin_cfg and the fifo flags are
written once at init and never read back). -/
structure mpu_chip_config where
  lpf : ℕ
  rate_div : ℕ
  lpa_freq : ℕ
  enable : Bool
  accel_enable : Bool
  gyro_enable : Bool
  is_asleep : Bool
deriving DecidableEq

/-- Driver state: the fields of struct mpu6050_sensor the modelled operations
touch.  The hrtimers are modelled by the relative expiry (in ms) they were
last armed with, none when cancelled or never started.  wake_up_idle records
the external set_wake_up_idle hint toggled by the workers. -/
structure mpu6050_sensor where
  cfg : mpu_chip_config
  axis : axis_data
  gyro_poll_ms : ℕ
  accel_poll_ms : ℕ
  accel_en : Bool
  gyro_en : Bool
  use_poll : Bool
  batch_accel : Bool
  batch_gyro : Bool
  acc_cal_params : Int × Int × Int
  acc_use_cal : Bool
  power_enabled : Bool
  gyro_wkp_flag : Bool
  accel_wkp_flag : Bool
  gyro_delay_change : Bool
  accel_delay_change : Bool
  gyro_timer : Option ℕ
  accel_timer : Option ℕ
  wake_up_idle : Bool
  place : Int
deriving DecidableEq

/-- hrtimer_try_to_cancel: 0 when the timer was not active, 1 when an armed
timer is cancelled (the -1 concurrent-callback case has no analogue in this
sequential model). -/
def hrtimer_try_to_cancel (t : Option ℕ) : Int :=
  match t with
  | none => 0
  | some _ => 1

/-- mpu6050_power_ctl: unconditionally returns rc = 0; raises the power flag
when asked on while off, clears it when asked off while on, and otherwise
only logs. -/
def mpu6050_power_ctl (s : mpu6050_sensor) (en : Bool) : Int × mpu6050_sensor :=
  (0,
    if en && !s.power_enabled then { s with power_enabled := true }
    else if !en && s.power_enabled then { s with power_enabled := false }
    else s)

/-- mpu6050_reset_chip: the reset loop reads only locals (ret = 1 masks to 0
against BIT_H_RESET), so it never changes the modelled state. -/
def mpu6050_reset_chip (s : mpu6050_sensor) : mpu6050_sensor := s

/-- mpu6050_set_lpa_freq: stores the frequency and returns 0. -/
def mpu6050_set_lpa_freq (s : mpu6050_sensor) (lpa_freq : ℕ) : Int × mpu6050_sensor :=
  (0, { s with cfg := { s.cfg with lpa_freq := lpa_freq } })

/-- mpu6050_restore_context: re-applies the stored lpa_freq via
mpu6050_set_lpa_freq and propagates its return value. -/
def mpu6050_restore_context (s : mpu6050_sensor) : Int × mpu6050_sensor :=
  mpu6050_set_lpa_freq s s.cfg.lpa_freq

/-- mpu6050_switch_engine: all effects are on locals (and settling sleeps),
return value is always 0. -/
def mpu6050_switch_engine (s : mpu6050_sensor) (_en : Bool) : Int × mpu6050_sensor :=
  (0, s)

/-- mpu6050_gyro_enable: rejected with -EINVAL while the chip is marked
asleep; otherwise switches the gyro engine flag, and on disable clears the
global enable flag when the accelerometer is also off. -/
def mpu6050_gyro_enable (s : mpu6050_sensor) (en : Bool) : Int × mpu6050_sensor :=
  if s.cfg.is_asleep then (-EINVAL, s)
  else if en then
    (0, { s with cfg := { s.cfg with gyro_enable := true, enable := true } })
  else
    let s1 := { s with cfg := { s.cfg with gyro_enable := false } }
    (0,
      if !s1.cfg.accel_enable then { s1 with cfg := { s1.cfg with enable := false } }
      else s1)

/-- mpu6050_accel_enable, mirror image of mpu6050_gyro_enable. -/
def mpu6050_accel_enable (s : mpu6050_sensor) (en : Bool) : Int × mpu6050_sensor :=
  if s.cfg.is_asleep then (-EINVAL, s)
  else if en then
    (0, { s with cfg := { s.cfg with accel_enable := true, enable := true } })
  else
    let s1 := { s with cfg := { s.cfg with accel_enable := false } }
    (0,
      if !s1.cfg.gyro_enable then { s1 with cfg := { s1.cfg with enable := false } }
      else s1)

/-! ## Rate negotiation (src/fake6050.c lines 746-801) -/

/-- Divisor computation of mpu6050_config_sample_rate (lines 755-774): the
smaller of the two polling intervals, clamped to the range of the active LPF
mode, turned into the 8-bit SMPLRT_DIV value. -/
def sample_rate_div_calc (accel_poll_ms gyro_poll_ms lpf : ℕ) : ℕ :=
  let delay0 := if accel_poll_ms ≤ gyro_poll_ms then accel_poll_ms else gyro_poll_ms
  if lpf ≠ MPU_DLPF_256HZ_NOLPF2 ∧ lpf ≠ MPU_DLPF_RESERVED then
    let d1 := if delay0 > DELAY_MS_MAX_DLPF then DELAY_MS_MAX_DLPF else delay0
    let d2 := if d1 < DELAY_MS_MIN_DLPF then DELAY_MS_MIN_DLPF else d1
    (ODR_DLPF_ENA * d2 / MSEC_PER_SEC - 1) % 256
  else
    let d1 := if delay0 > DELAY_MS_MAX_NODLPF then DELAY_MS_MAX_NODLPF else delay0
    let d2 := if d1 < DELAY_MS_MIN_NODLPF then DELAY_MS_MIN_NODLPF else d1
    (ODR_DLPF_DIS * d2 / MSEC_PER_SEC - 1) % 256

/-- mpu6050_config_sample_rate: -EINVAL while asleep; otherwise recomputes
the shared divisor from both polling intervals and stores it when changed. -/
def mpu6050_config_sample_rate (s : mpu6050_sensor) : Int × mpu6050_sensor :=
  if s.cfg.is_asleep then (-EINVAL, s)
  else
    let div := sample_rate_div_calc s.accel_poll_ms s.gyro_poll_ms s.cfg.lpf
    if s.cfg.rate_div = div then (0, s)
    else (0, { s with cfg := { s.cfg with rate_div := div } })

/-- Interval implied by a divisor, the body of mpu6050_get_sample_interval:
(rate_div + 1) ms in ns, additionally divided by 8 in the no-DLPF modes. -/
def sample_interval_from_divisor (rate_div lpf : ℕ) : ℕ :=
  if lpf = MPU_DLPF_256HZ_NOLPF2 ∨ lpf = MPU_DLPF_RESERVED then
    (rate_div + 1) * NSEC_PER_MSEC / 8
  else
    (rate_div + 1) * NSEC_PER_MSEC

/-- mpu6050_get_sample_interval on the sensor state. -/
def mpu6050_get_sample_interval (s : mpu6050_sensor) : ℕ :=
  sample_interval_from_divisor s.cfg.rate_div s.cfg.lpf

/-! ## Channel enable/disable (src/fake6050.c lines 683-744, 999-1058) -/

/-- Power-up sequence at the head of both set_enable paths: power on, then
chip reset and context restore; a failed power-up skips reset and restore. -/
def mpu6050_power_up_seq (s : mpu6050_sensor) : Int × mpu6050_sensor :=
  let p1 := mpu6050_power_ctl s true
  if p1.1 < 0 then p1
  else mpu6050_restore_context (mpu6050_reset_chip p1.2)

/-- mpu6050_gyro_set_enable.  Enable: power-up sequence when the power flag
is down (aborting on its error), engine on (-EBUSY on failure), divisor
reconfiguration (its return value is the one returned), timer start unless
batching, then the gyro_en flag.  Disable: clear gyro_en, cancel the timer
unless batching, engine off (-EBUSY on failure), and power down when both
engines are now off. -/
def mpu6050_gyro_set_enable (s : mpu6050_sensor) (enable : Bool) : Int × mpu6050_sensor :=
  if enable then
    let pre := if !s.power_enabled then mpu6050_power_up_seq s else (0, s)
    if pre.1 < 0 then pre
    else
      let pe := mpu6050_gyro_enable pre.2 true
      if pe.1 ≠ 0 then (-EBUSY, pe.2)
      else
        let pc := mpu6050_config_sample_rate pe.2
        let s4 :=
          if !pc.2.batch_gyro then { pc.2 with gyro_timer := some pc.2.gyro_poll_ms }
          else pc.2
        (pc.1, { s4 with gyro_en := true })
  else
    let s1 := { s with gyro_en := false }
    let s2 := if !s1.batch_gyro then { s1 with gyro_timer := none } else s1
    let pe := mpu6050_gyro_enable s2 false
    if pe.1 ≠ 0 then (-EBUSY, pe.2)
    else if !pe.2.cfg.accel_enable && !pe.2.cfg.gyro_enable then
      (pe.1, (mpu6050_power_ctl pe.2 false).2)
    else (pe.1, pe.2)

/-- mpu6050_accel_set_enable, mirror image of mpu6050_gyro_set_enable on the
accelerometer fields. -/
def mpu6050_accel_set_enable (s : mpu6050_sensor) (enable : Bool) : Int × mpu6050_sensor :=
  if enable then
    let pre := if !s.power_enabled then mpu6050_power_up_seq s else (0, s)
    if pre.1 < 0 then pre
    else
      let pe := mpu6050_accel_enable pre.2 true
      if pe.1 ≠ 0 then (-EBUSY, pe.2)
      else
        let pc := mpu6050_config_sample_rate pe.2
        let s4 :=
          if !pc.2.batch_accel then { pc.2 with accel_timer := some pc.2.accel_poll_ms }
          else pc.2
        (pc.1, { s4 with accel_en := true })
  else
    let s1 := { s with accel_en := false }
    let s2 := if !s1.batch_accel then { s1 with accel_timer := none } else s1
    let pe := mpu6050_accel_enable s2 false
    if pe.1 ≠ 0 then (-EBUSY, pe.2)
    else if !pe.2.cfg.accel_enable && !pe.2.cfg.gyro_enable then
      (pe.1, (mpu6050_power_ctl pe.2 false).2)
    else (pe.1, pe.2)

/-! ## Poll-interval requests (src/fake6050.c lines 803-826, 1060-1096) -/

/-- mpu6050_gyro_set_poll_delay: clamp to [10, 5000] ms; when the clamped
value equals the stored one, fall through to exit returning 0; otherwise mark
the pending change and store it.  The gyro_en test in the source only guards
a fall-through to the same exit label, so enabled state changes nothing more:
in particular the timer is not re-armed here. -/
def mpu6050_gyro_set_poll_delay (s : mpu6050_sensor) (delay : ℕ) : Int × mpu6050_sensor :=
  let d1 := if delay < MPU6050_GYRO_MIN_POLL_INTERVAL_MS
            then MPU6050_GYRO_MIN_POLL_INTERVAL_MS else delay
  let d2 := if d1 > MPU6050_GYRO_MAX_POLL_INTERVAL_MS
            then MPU6050_GYRO_MAX_POLL_INTERVAL_MS else d1
  if s.gyro_poll_ms = d2 then (0, s)
  else (0, { s with gyro_delay_change := true, gyro_poll_ms := d2 })

/-- mpu6050_accel_set_poll_delay.  The local ret is declared without an
initialiser and is only assigned on the enabled paths (the
hrtimer_try_to_cancel result in polling mode, the config_sample_rate result
otherwise); the unchanged-value and disabled paths return it unassigned, so
those paths return the indeterminate ret0 supplied by the caller model. -/
def mpu6050_accel_set_poll_delay (s : mpu6050_sensor) (delay : ℕ) (ret0 : Int) :
    Int × mpu6050_sensor :=
  let d1 := if delay < MPU6050_ACCEL_MIN_POLL_INTERVAL_MS
            then MPU6050_ACCEL_MIN_POLL_INTERVAL_MS else delay
  let d2 := if d1 > MPU6050_ACCEL_MAX_POLL_INTERVAL_MS
            then MPU6050_ACCEL_MAX_POLL_INTERVAL_MS else d1
  if s.accel_poll_ms = d2 then (ret0, s)
  else
    let s1 := { s with accel_delay_change := true, accel_poll_ms := d2 }
    if !s1.accel_en then (ret0, s1)
    else if s1.use_poll then
      let rc := hrtimer_try_to_cancel s1.accel_timer
      (rc, { s1 with accel_timer := some s1.accel_poll_ms })
    else
      mpu6050_config_sample_rate s1

/-! ## Timers and workers (src/fake6050.c lines 382-519) -/

/-- mpu6050_manage_polling for the gyro channel: re-arm the one-shot timer
with the current interval while the channel is enabled, cancel it
otherwise. -/
def mpu6050_manage_polling_gyro (s : mpu6050_sensor) : mpu6050_sensor :=
  if s.gyro_en then { s with gyro_timer := some s.gyro_poll_ms }
  else { s with gyro_timer := none }

/-- mpu6050_manage_polling for the accel channel. -/
def mpu6050_manage_polling_accel (s : mpu6050_sensor) : mpu6050_sensor :=
  if s.accel_en then { s with accel_timer := some s.accel_poll_ms }
  else { s with accel_timer := none }

/-- gyro_timer_handle: raise the wake flag, then decide re-arming inside the
callback itself. -/
def gyro_timer_handle (s : mpu6050_sensor) : mpu6050_sensor :=
  mpu6050_manage_polling_gyro { s with gyro_wkp_flag := true }

/-- accel_timer_handle. -/
def accel_timer_handle (s : mpu6050_sensor) : mpu6050_sensor :=
  mpu6050_manage_polling_accel { s with accel_wkp_flag := true }

/-- set_wake_up_idle, the external idle-wake hint toggled by the workers. -/
def set_wake_up_idle (s : mpu6050_sensor) (en : Bool) : mpu6050_sensor :=
  { s with wake_up_idle := en }

/-- One non-stopping iteration of accel_poll_thread after a wake: clear the
wake flag, consume a pending interval change (switching the idle-wake hint on
the 100 Hz threshold), remap the shared axis data in place with the
accelerometer table, and publish the resulting x, y, z.  No calibration bias
is applied anywhere in the loop. -/
def accel_poll_thread_step (s : mpu6050_sensor) : mpu6050_sensor × (Int × Int × Int) :=
  let s1 := { s with accel_wkp_flag := false }
  let s2 :=
    if s1.accel_delay_change then
      let s' := if s1.accel_poll_ms ≤ POLL_MS_100HZ
                then set_wake_up_idle s1 true else set_wake_up_idle s1 false
      { s' with accel_delay_change := false }
    else s1
  let s3 := { s2 with axis := mpu6050_remap_accel_data s2.axis s2.place }
  (s3, (s3.axis.x, s3.axis.y, s3.axis.z))

/-- One non-stopping iteration of gyro_poll_thread after a wake. -/
def gyro_poll_thread_step (s : mpu6050_sensor) : mpu6050_sensor × (Int × Int × Int) :=
  let s1 := { s with gyro_wkp_flag := false }
  let s2 :=
    if s1.gyro_delay_change then
      let s' := if s1.gyro_poll_ms ≤ POLL_MS_100HZ
                then set_wake_up_idle s1 true else set_wake_up_idle s1 false
      { s' with gyro_delay_change := false }
    else s1
  let s3 := { s2 with axis := mpu6050_remap_gyro_data s2.axis s2.place }
  (s3, (s3.axis.rx, s3.axis.ry, s3.axis.rz))

/-! ## Probe (src/fake6050.c lines 1404-1648, state-relevant steps) -/

/-- Zero-filled sensor as allocated by devm_kzalloc, with the device-tree
place already parsed into pdata. -/
def mpu6050_kzalloc (place : Int) : mpu6050_sensor where
  cfg := ⟨0, 0, 0, false, false, false, false⟩
  axis := ⟨0, 0, 0, 0, 0, 0⟩
  gyro_poll_ms := 0
  accel_poll_ms := 0
  accel_en := false
  gyro_en := false
  use_poll := false
  batch_accel := false
  batch_gyro := false
  acc_cal_params := (0, 0, 0)
  acc_use_cal := false
  power_enabled := false
  gyro_wkp_flag := false
  accel_wkp_flag := false
  gyro_delay_change := false
  accel_delay_change := false
  gyro_timer := none
  accel_timer := none
  wake_up_idle := false
  place := place

/-- mpu6050_init_config: -EINVAL while asleep; otherwise zero the chip
configuration and install the defaults (42Hz DLPF, initial divisor for the
50 Hz FIFO rate, engines off). -/
def mpu6050_init_config (s : mpu6050_sensor) : Int × mpu6050_sensor :=
  if s.cfg.is_asleep then (-EINVAL, s)
  else
    (0, { s with cfg :=
      { lpf := MPU_DLPF_42HZ
        rate_div := ODR_DLPF_ENA / INIT_FIFO_RATE - 1
        lpa_freq := 0
        enable := false
        accel_enable := false
        gyro_enable := false
        is_asleep := false } })

/-- State produced by a successful mpu6050_probe: power cycled up for chip
setup and back down at the end, lpa frequency stored then wiped by the config
memset, default 200 ms intervals on both channels, polling mode, calibration
off, both channels disabled. -/
def mpu6050_probe (place : Int) : mpu6050_sensor :=
  let s0 := mpu6050_kzalloc place
  let s1 := (mpu6050_power_ctl s0 true).2
  let s2 := (mpu6050_set_lpa_freq s1 MPU6050_LPA_5HZ).2
  let s3 := { s2 with cfg := { s2.cfg with is_asleep := false } }
  let s4 := (mpu6050_init_config s3).2
  let s5 := { s4 with
    accel_poll_ms := MPU6050_ACCEL_DEFAULT_POLL_INTERVAL_MS
    gyro_poll_ms := MPU6050_GYRO_DEFAULT_POLL_INTERVAL_MS
    acc_use_cal := false
    use_poll := true }
  (mpu6050_power_ctl s5 false).2

/-! ## Caller-facing call sequences -/

/-- One caller-facing request: enable/disable either channel or set either
channel's poll interval. -/
inductive sensor_request where
  | gyroEnable (b : Bool)
  | accelEnable (b : Bool)
  | gyroDelay (d : ℕ)
  | accelDelay (d : ℕ)
deriving DecidableEq

/-- Post state of one request (the accel delay path's uninitialised local is
irrelevant to the state, so it is supplied as 0 here). -/
def apply_request (s : mpu6050_sensor) : sensor_request → mpu6050_sensor
  | .gyroEnable b => (mpu6050_gyro_set_enable s b).2
  | .accelEnable b => (mpu6050_accel_set_enable s b).2
  | .gyroDelay d => (mpu6050_gyro_set_poll_delay s d).2
  | .accelDelay d => (mpu6050_accel_set_poll_delay s d 0).2

/-- State after a finite sequence of interleaved caller requests. -/
def run_requests (s : mpu6050_sensor) : List sensor_request → mpu6050_sensor
  | [] => s
  | r :: rs => run_requests (apply_request s r) rs

/-! ## Rate negotiation: specification-side definitions and theorems -/

/-- Modelled from the spec: rounding division, round(a / b) with ties up. -/
def round_div (a b : ℕ) : ℕ := (a + b / 2) / b

/-- Modelled from the spec (Rate Negotiator contract): the effective interval
is the minimum of the two requested intervals, clamped to the active mode's
valid range, and the divisor is round(odr * interval_ms / 1000) - 1 with the
no-DLPF constants in the NoLpf/Reserved modes and the DLPF constants
otherwise. -/
def negotiate_spec (interval_accel interval_gyro lpf : ℕ) : ℕ :=
  let effective_interval := min interval_accel interval_gyro
  if lpf = MPU_DLPF_256HZ_NOLPF2 ∨ lpf = MPU_DLPF_RESERVED then
    let c := min (max effective_interval DELAY_MS_MIN_NODLPF) DELAY_MS_MAX_NODLPF
    round_div (ODR_DLPF_DIS * c) MSEC_PER_SEC - 1
  else
    let c := min (max effective_interval DELAY_MS_MIN_DLPF) DELAY_MS_MAX_DLPF
    round_div (ODR_DLPF_ENA * c) MSEC_PER_SEC - 1

theorem sample_rate_div_calc_eq_spec (a g lpf : ℕ) :
    sample_rate_div_calc a g lpf = negotiate_spec a g lpf := by
  unfold sample_rate_div_calc negotiate_spec round_div
  unfold MPU_DLPF_256HZ_NOLPF2 MPU_DLPF_RESERVED ODR_DLPF_ENA ODR_DLPF_DIS
    DELAY_MS_MIN_DLPF DELAY_MS_MAX_DLPF DELAY_MS_MIN_NODLPF DELAY_MS_MAX_NODLPF
    MSEC_PER_SEC
  dsimp only
  split_ifs <;> omega

/-- C3: for every non-asleep state, mpu6050_config_sample_rate succeeds and
stores as shared divisor exactly the spec formula: the minimum of the two
requested intervals, clamped to the active LPF mode's range, through
round(odr * interval_ms / 1000) - 1 with the no-DLPF constants in the
NoLpf/Reserved modes and the DLPF constants otherwise. -/
theorem config_sample_rate_matches_spec (s : mpu6050_sensor)
    (h : s.cfg.is_asleep = false) :
    (mpu6050_config_sample_rate s).1 = 0 ∧
    (mpu6050_config_sample_rate s).2.cfg.rate_div =
      negotiate_spec s.accel_poll_ms s.gyro_poll_ms s.cfg.lpf := by
  have hr := sample_rate_div_calc_eq_spec s.accel_poll_ms s.gyro_poll_ms s.cfg.lpf
  unfold mpu6050_config_sample_rate
  simp only [h, Bool.false_eq_true, if_false]
  split_ifs with hdiv
  · exact ⟨rfl, hdiv.trans hr⟩
  · exact ⟨rfl, hr⟩

/-- Witness for config_sample_rate_matches_spec at the probed state. -/
theorem config_sample_rate_matches_spec_witness :
    (mpu6050_config_sample_rate (mpu6050_probe 0)).1 = 0 ∧
    (mpu6050_config_sample_rate (mpu6050_probe 0)).2.cfg.rate_div =
      negotiate_spec (mpu6050_probe 0).accel_poll_ms (mpu6050_probe 0).gyro_poll_ms
        (mpu6050_probe 0).cfg.lpf :=
  config_sample_rate_matches_spec (mpu6050_probe 0) (by decide)

/-- C6: negotiating equal intervals in the NoLpf mode and mapping the divisor
back through mpu6050_get_sample_interval's formula recovers exactly the
clamped interval (in ns), in particular within one divisor step of it. -/
theorem negotiate_roundtrip_nolpf (i : ℕ) :
    sample_interval_from_divisor
        (sample_rate_div_calc i i MPU_DLPF_256HZ_NOLPF2) MPU_DLPF_256HZ_NOLPF2 =
      min (max i DELAY_MS_MIN_NODLPF) DELAY_MS_MAX_NODLPF * NSEC_PER_MSEC := by
  unfold sample_interval_from_divisor sample_rate_div_calc
  unfold MPU_DLPF_256HZ_NOLPF2 MPU_DLPF_RESERVED ODR_DLPF_DIS ODR_DLPF_ENA
    DELAY_MS_MIN_NODLPF DELAY_MS_MAX_NODLPF DELAY_MS_MIN_DLPF DELAY_MS_MAX_DLPF
    MSEC_PER_SEC NSEC_PER_MSEC
  dsimp only
  split_ifs <;> omega

theorem interval_of_negotiate (a g lpf : ℕ) :
    sample_interval_from_divisor (sample_rate_div_calc a g lpf) lpf =
      (if lpf = MPU_DLPF_256HZ_NOLPF2 ∨ lpf = MPU_DLPF_RESERVED then
        min (max (min a g) DELAY_MS_MIN_NODLPF) DELAY_MS_MAX_NODLPF
      else
        min (max (min a g) DELAY_MS_MIN_DLPF) DELAY_MS_MAX_DLPF) * NSEC_PER_MSEC := by
  unfold sample_interval_from_divisor sample_rate_div_calc
  unfold MPU_DLPF_256HZ_NOLPF2 MPU_DLPF_RESERVED ODR_DLPF_DIS ODR_DLPF_ENA
    DELAY_MS_MIN_NODLPF DELAY_MS_MAX_NODLPF DELAY_MS_MIN_DLPF DELAY_MS_MAX_DLPF
    MSEC_PER_SEC NSEC_PER_MSEC
  dsimp only
  split_ifs <;> omega

/-- C7: the sample interval implied by the negotiated divisor is monotone in
each requested interval, for every LPF mode. -/
theorem negotiate_monotone (lpf a a' g g' : ℕ) (ha : a ≤ a') (hg : g ≤ g') :
    sample_interval_from_divisor (sample_rate_div_calc a g lpf) lpf ≤
      sample_interval_from_divisor (sample_rate_div_calc a' g lpf) lpf ∧
    sample_interval_from_divisor (sample_rate_div_calc a g lpf) lpf ≤
      sample_interval_from_divisor (sample_rate_div_calc a g' lpf) lpf := by
  rw [interval_of_negotiate, interval_of_negotiate, interval_of_negotiate]
  unfold DELAY_MS_MIN_NODLPF DELAY_MS_MAX_NODLPF DELAY_MS_MIN_DLPF
    DELAY_MS_MAX_DLPF NSEC_PER_MSEC
  split_ifs <;> constructor <;>
    apply Nat.mul_le_mul_right <;> omega

/-- Witness for negotiate_monotone at concrete intervals 10 to 20 against 15
to 30 in the NoLpf mode. -/
theorem negotiate_monotone_witness :
    (sample_interval_from_divisor (sample_rate_div_calc 10 15 0) 0 ≤
      sample_interval_from_divisor (sample_rate_div_calc 20 15 0) 0) ∧
    (sample_interval_from_divisor (sample_rate_div_calc 10 15 0) 0 ≤
      sample_interval_from_divisor (sample_rate_div_calc 10 30 0) 0) :=
  negotiate_monotone 0 10 20 15 30 (by decide) (by decide)

/-! ## Placement transform theorems -/

theorem toS16_eq_self (v : Int) (h1 : -32768 ≤ v) (h2 : v ≤ 32767) : toS16 v = v := by
  unfold toS16; omega

theorem toS16_ne_zero (w : Int) (h1 : -32768 ≤ w) (h2 : w ≤ 32768) (h3 : w ≠ 0) :
    toS16 w ≠ 0 := by
  unfold toS16; omega

theorem toS16_zero : toS16 0 = 0 := by decide

theorem vec3_eta (f : Fin 3 → Int) (w : Fin 3) : ![f 0, f 1, f 2] w = f w := by
  fin_cases w <;> simp

/-- Input whose three channel axes are all zero except axis k, which holds v. -/
def one_hot3 (k : Fin 3) (v : Int) : Fin 3 → Int := fun i => if i = k then v else 0

/-- Axis record carrying a one-hot accelerometer reading. -/
def accel_one_hot_input (k : Fin 3) (v : Int) : axis_data :=
  ⟨one_hot3 k v 0, one_hot3 k v 1, one_hot3 k v 2, 0, 0, 0⟩

/-- Axis record carrying a one-hot gyroscope reading. -/
def gyro_one_hot_input (k : Fin 3) (v : Int) : axis_data :=
  ⟨0, 0, 0, one_hot3 k v 0, one_hot3 k v 1, one_hot3 k v 2⟩

/-- Accelerometer remap output on a one-hot input, as a vector. -/
def accel_one_hot_out (place : Int) (k : Fin 3) (v : Int) : Fin 3 → Int :=
  let d := mpu6050_remap_accel_data (accel_one_hot_input k v) place
  ![d.x, d.y, d.z]

/-- Gyroscope remap output on a one-hot input, as a vector. -/
def gyro_one_hot_out (place : Int) (k : Fin 3) (v : Int) : Fin 3 → Int :=
  let d := mpu6050_remap_gyro_data (gyro_one_hot_input k v) place
  ![d.rx, d.ry, d.rz]

/-- Every row of both remap tables is a signed permutation: the three source
indices cover every axis exactly once and every sign is 1 or -1. -/
theorem remap_tabs_ok : ∀ p : Fin 8,
    ((∀ k : Fin 3, ∃ j : Fin 3, (mpu6050_accel_axis_remap_tab p).src j = k ∧
        ∀ j2 : Fin 3, (mpu6050_accel_axis_remap_tab p).src j2 = k → j2 = j) ∧
      (∀ t : Fin 3, (mpu6050_accel_axis_remap_tab p).sign t = 1 ∨
        (mpu6050_accel_axis_remap_tab p).sign t = -1)) ∧
    ((∀ k : Fin 3, ∃ j : Fin 3, (mpu6050_gyro_axis_remap_tab p).src j = k ∧
        ∀ j2 : Fin 3, (mpu6050_gyro_axis_remap_tab p).src j2 = k → j2 = j) ∧
      (∀ t : Fin 3, (mpu6050_gyro_axis_remap_tab p).sign t = 1 ∨
        (mpu6050_gyro_axis_remap_tab p).sign t = -1)) := by
  decide

/-- Applying one signed-permutation row to a one-hot input yields a one-hot
output: the unique target axis drawing from axis k gets the signed value,
every other target axis gets zero. -/
theorem remap_row_one_hot (r : sensor_axis_remap)
    (hperm : ∀ k : Fin 3, ∃ j : Fin 3, r.src j = k ∧
      ∀ j2 : Fin 3, r.src j2 = k → j2 = j)
    (hsign : ∀ t : Fin 3, r.sign t = 1 ∨ r.sign t = -1)
    (k : Fin 3) (v : Int) (h1 : -32768 ≤ v) (h2 : v ≤ 32767) (h3 : v ≠ 0) :
    ∃ j : Fin 3, r.src j = k ∧
      toS16 (one_hot3 k v (r.src j) * r.sign j) = toS16 (r.sign j * v) ∧
      toS16 (one_hot3 k v (r.src j) * r.sign j) ≠ 0 ∧
      ∀ i : Fin 3, i ≠ j → toS16 (one_hot3 k v (r.src i) * r.sign i) = 0 := by
  obtain ⟨j, hj, huniq⟩ := hperm k
  have hov : one_hot3 k v (r.src j) = v := by rw [hj]; simp [one_hot3]
  refine ⟨j, hj, by rw [hov, mul_comm], ?_, ?_⟩
  · rw [hov]
    rcases hsign j with hs | hs <;> rw [hs]
    · rw [mul_one]
      exact toS16_ne_zero v h1 (by omega) h3
    · have : v * -1 = -v := by ring
      rw [this]
      exact toS16_ne_zero (-v) (by omega) (by omega) (by omega)
  · intro i hi
    have hsrc : r.src i ≠ k := fun hc => hi (huniq i hc)
    have hz : one_hot3 k v (r.src i) = 0 := by simp [one_hot3, hsrc]
    rw [hz, zero_mul, toS16_zero]

theorem accel_one_hot_out_eval (place : Int) (hp1 : 1 ≤ place) (hp7 : place ≤ 7)
    (k : Fin 3) (v : Int) (i : Fin 3) :
    accel_one_hot_out place k v i =
      toS16 (one_hot3 k v ((mpu6050_accel_axis_remap_tab (remap_tab_index place)).src i) *
        (mpu6050_accel_axis_remap_tab (remap_tab_index place)).sign i) := by
  have hg : ¬(place ≤ 0 ∨ 8 ≤ place) := by omega
  unfold accel_one_hot_out mpu6050_remap_accel_data accel_one_hot_input
  rw [if_neg hg]
  dsimp only
  simp only [vec3_eta (one_hot3 k v)]
  fin_cases i <;> simp

theorem gyro_one_hot_out_eval (place : Int) (hp1 : 1 ≤ place) (hp7 : place ≤ 7)
    (k : Fin 3) (v : Int) (i : Fin 3) :
    gyro_one_hot_out place k v i =
      toS16 (one_hot3 k v ((mpu6050_gyro_axis_remap_tab (remap_tab_index place)).src i) *
        (mpu6050_gyro_axis_remap_tab (remap_tab_index place)).sign i) := by
  have hg : ¬(place ≤ 0 ∨ 8 ≤ place) := by omega
  unfold gyro_one_hot_out mpu6050_remap_gyro_data gyro_one_hot_input
  rw [if_neg hg]
  dsimp only
  simp only [vec3_eta (one_hot3 k v)]
  fin_cases i <;> simp

/-- C4: orientation 0 and every out-of-range orientation leave any input
unchanged on both channels; and for every orientation 1..7, channel, axis and
nonzero in-range value, the remap of the one-hot input has exactly one
nonzero output axis, carrying the value signed by that channel's table row. -/
theorem remap_identity_and_one_hot :
    (∀ (place : Int) (d : axis_data), place ≤ 0 ∨ 8 ≤ place →
      mpu6050_remap_accel_data d place = d ∧ mpu6050_remap_gyro_data d place = d) ∧
    (∀ place : Int, 1 ≤ place → place ≤ 7 → ∀ (k : Fin 3) (v : Int),
      -32768 ≤ v → v ≤ 32767 → v ≠ 0 →
      (∃ j : Fin 3,
        (mpu6050_accel_axis_remap_tab (remap_tab_index place)).src j = k ∧
        accel_one_hot_out place k v j =
          toS16 ((mpu6050_accel_axis_remap_tab (remap_tab_index place)).sign j * v) ∧
        accel_one_hot_out place k v j ≠ 0 ∧
        ∀ i : Fin 3, i ≠ j → accel_one_hot_out place k v i = 0) ∧
      (∃ j : Fin 3,
        (mpu6050_gyro_axis_remap_tab (remap_tab_index place)).src j = k ∧
        gyro_one_hot_out place k v j =
          toS16 ((mpu6050_gyro_axis_remap_tab (remap_tab_index place)).sign j * v) ∧
        gyro_one_hot_out place k v j ≠ 0 ∧
        ∀ i : Fin 3, i ≠ j → gyro_one_hot_out place k v i = 0)) := by
  constructor
  · intro place d h
    constructor <;>
      [unfold mpu6050_remap_accel_data; unfold mpu6050_remap_gyro_data] <;>
      rw [if_pos h]
  · intro place hp1 hp7 k v hv1 hv2 hv3
    obtain ⟨⟨haperm, hasign⟩, ⟨hgperm, hgsign⟩⟩ := remap_tabs_ok (remap_tab_index place)
    constructor
    · obtain ⟨j, hj, he, hnz, hz⟩ :=
        remap_row_one_hot _ haperm hasign k v hv1 hv2 hv3
      refine ⟨j, hj, ?_, ?_, ?_⟩
      · rw [accel_one_hot_out_eval place hp1 hp7, he]
      · rw [accel_one_hot_out_eval place hp1 hp7]; exact hnz
      · intro i hi
        rw [accel_one_hot_out_eval place hp1 hp7]; exact hz i hi
    · obtain ⟨j, hj, he, hnz, hz⟩ :=
        remap_row_one_hot _ hgperm hgsign k v hv1 hv2 hv3
      refine ⟨j, hj, ?_, ?_, ?_⟩
      · rw [gyro_one_hot_out_eval place hp1 hp7, he]
      · rw [gyro_one_hot_out_eval place hp1 hp7]; exact hnz
      · intro i hi
        rw [gyro_one_hot_out_eval place hp1 hp7]; exact hz i hi

/-- Witness for remap_identity_and_one_hot: identity at orientation 8 on a
concrete reading, and the one-hot property at orientation 1, axis 0, value
5. -/
theorem remap_identity_and_one_hot_witness :
    (mpu6050_remap_accel_data ⟨1, 2, 3, 4, 5, 6⟩ 8 = ⟨1, 2, 3, 4, 5, 6⟩ ∧
      mpu6050_remap_gyro_data ⟨1, 2, 3, 4, 5, 6⟩ 8 = ⟨1, 2, 3, 4, 5, 6⟩) ∧
    ((∃ j : Fin 3,
        (mpu6050_accel_axis_remap_tab (remap_tab_index 1)).src j = 0 ∧
        accel_one_hot_out 1 0 5 j =
          toS16 ((mpu6050_accel_axis_remap_tab (remap_tab_index 1)).sign j * 5) ∧
        accel_one_hot_out 1 0 5 j ≠ 0 ∧
        ∀ i : Fin 3, i ≠ j → accel_one_hot_out 1 0 5 i = 0) ∧
      (∃ j : Fin 3,
        (mpu6050_gyro_axis_remap_tab (remap_tab_index 1)).src j = 0 ∧
        gyro_one_hot_out 1 0 5 j =
          toS16 ((mpu6050_gyro_axis_remap_tab (remap_tab_index 1)).sign j * 5) ∧
        gyro_one_hot_out 1 0 5 j ≠ 0 ∧
        ∀ i : Fin 3, i ≠ j → gyro_one_hot_out 1 0 5 i = 0)) :=
  ⟨remap_identity_and_one_hot.1 8 ⟨1, 2, 3, 4, 5, 6⟩ (by decide),
   remap_identity_and_one_hot.2 1 (by decide) (by decide) 0 5
     (by decide) (by decide) (by decide)⟩

/-! ## Channel state machine theorems -/

theorem sensor_eta_power (s : mpu6050_sensor) :
    ({ s with power_enabled := s.power_enabled } : mpu6050_sensor) = s := by
  obtain ⟨cfg, ax, gp, ap, aen, gen, up, ba, bg, acp, auc, pe, gw, aw, gdc, adc,
    gt, att, wui, pl⟩ := s
  rfl

theorem sensor_eta_rate_div (s : mpu6050_sensor) :
    ({ s with cfg := { s.cfg with rate_div := s.cfg.rate_div } } : mpu6050_sensor) = s := by
  obtain ⟨⟨l, rd, lf, e, ae, ge2, ia⟩, ax, gp, ap, aen, gen, up, ba, bg, acp, auc,
    pe, gw, aw, gdc, adc, gt, att, wui, pl⟩ := s
  rfl

theorem mpu6050_restore_context_eq (s : mpu6050_sensor) :
    mpu6050_restore_context s = (0, s) := by
  obtain ⟨⟨l, rd, lf, e, ae, ge2, ia⟩, ax, gp, ap, aen, gen, up, ba, bg, acp, auc,
    pe, gw, aw, gdc, adc, gt, att, wui, pl⟩ := s
  rfl

theorem set_power_true_self (s : mpu6050_sensor) (h : s.power_enabled = true) :
    ({ s with power_enabled := true } : mpu6050_sensor) = s := by
  rw [← h]

theorem mpu6050_power_up_seq_eq (s : mpu6050_sensor) :
    mpu6050_power_up_seq s = (0, { s with power_enabled := true }) := by
  unfold mpu6050_power_up_seq mpu6050_power_ctl mpu6050_reset_chip
  dsimp only
  cases hp : s.power_enabled <;>
    simp [mpu6050_restore_context_eq, set_power_true_self, hp]

/-- Power flag consistency: the cached power flag agrees with the disjunction
of the two per-channel engine-enable flags. -/
def power_flag_consistent (s : mpu6050_sensor) : Prop :=
  s.power_enabled = (s.cfg.gyro_enable || s.cfg.accel_enable)

/-- Reachability invariant from the probed state: the chip is never marked
asleep by any modelled request, and the power flag is consistent. -/
def reachable_inv (s : mpu6050_sensor) : Prop :=
  s.cfg.is_asleep = false ∧ power_flag_consistent s

theorem gyro_set_enable_preserves_inv (s : mpu6050_sensor) (h : reachable_inv s) (b : Bool) :
    reachable_inv (mpu6050_gyro_set_enable s b).2 := by
  unfold reachable_inv power_flag_consistent at h ⊢
  obtain ⟨⟨l, rd, lf, e, ae, ge2, ia⟩, ax, gp, ap, aen, gen, up, ba, bg, acp, auc,
    pe, gw, aw, gdc, adc, gt, att, wui, pl⟩ := s
  obtain ⟨hA, hP⟩ := h
  cases b <;> cases ia <;> cases pe <;> cases ge2 <;> cases ae <;> cases bg <;>
    simp_all [mpu6050_gyro_set_enable, mpu6050_gyro_enable, mpu6050_config_sample_rate,
      mpu6050_power_ctl, mpu6050_power_up_seq, mpu6050_restore_context,
      mpu6050_set_lpa_freq, mpu6050_reset_chip, EINVAL, EBUSY, apply_ite]

theorem accel_set_enable_preserves_inv (s : mpu6050_sensor) (h : reachable_inv s) (b : Bool) :
    reachable_inv (mpu6050_accel_set_enable s b).2 := by
  unfold reachable_inv power_flag_consistent at h ⊢
  obtain ⟨⟨l, rd, lf, e, ae, ge2, ia⟩, ax, gp, ap, aen, gen, up, ba, bg, acp, auc,
    pe, gw, aw, gdc, adc, gt, att, wui, pl⟩ := s
  obtain ⟨hA, hP⟩ := h
  cases b <;> cases ia <;> cases pe <;> cases ge2 <;> cases ae <;> cases ba <;>
    simp_all [mpu6050_accel_set_enable, mpu6050_accel_enable, mpu6050_config_sample_rate,
      mpu6050_power_ctl, mpu6050_power_up_seq, mpu6050_restore_context,
      mpu6050_set_lpa_freq, mpu6050_reset_chip, EINVAL, EBUSY, apply_ite]

theorem gyro_set_poll_delay_preserves_inv (s : mpu6050_sensor) (h : reachable_inv s)
    (d : ℕ) : reachable_inv (mpu6050_gyro_set_poll_delay s d).2 := by
  unfold reachable_inv power_flag_consistent at h ⊢
  unfold mpu6050_gyro_set_poll_delay
  dsimp only
  split_ifs <;> simp_all [apply_ite]

theorem config_sample_rate_preserves (s : mpu6050_sensor) :
    (mpu6050_config_sample_rate s).2.cfg.is_asleep = s.cfg.is_asleep ∧
    (mpu6050_config_sample_rate s).2.power_enabled = s.power_enabled ∧
    (mpu6050_config_sample_rate s).2.cfg.gyro_enable = s.cfg.gyro_enable ∧
    (mpu6050_config_sample_rate s).2.cfg.accel_enable = s.cfg.accel_enable := by
  unfold mpu6050_config_sample_rate
  dsimp only
  split_ifs <;> exact ⟨rfl, rfl, rfl, rfl⟩

theorem accel_set_poll_delay_preserves_inv (s : mpu6050_sensor) (h : reachable_inv s)
    (d : ℕ) (r0 : Int) : reachable_inv (mpu6050_accel_set_poll_delay s d r0).2 := by
  unfold reachable_inv power_flag_consistent at h ⊢
  obtain ⟨hA, hP⟩ := h
  unfold mpu6050_accel_set_poll_delay
  dsimp only
  split_ifs <;>
    first
      | exact ⟨hA, hP⟩
      | (refine ⟨(config_sample_rate_preserves _).1.trans hA, ?_⟩
         rw [(config_sample_rate_preserves _).2.1, (config_sample_rate_preserves _).2.2.1,
           (config_sample_rate_preserves _).2.2.2]
         exact hP)

theorem apply_request_preserves_inv (s : mpu6050_sensor) (h : reachable_inv s)
    (r : sensor_request) : reachable_inv (apply_request s r) := by
  cases r with
  | gyroEnable b => exact gyro_set_enable_preserves_inv s h b
  | accelEnable b => exact accel_set_enable_preserves_inv s h b
  | gyroDelay d => exact gyro_set_poll_delay_preserves_inv s h d
  | accelDelay d => exact accel_set_poll_delay_preserves_inv s h d 0

theorem run_requests_preserves_inv (rs : List sensor_request) (s : mpu6050_sensor)
    (h : reachable_inv s) : reachable_inv (run_requests s rs) := by
  induction rs generalizing s with
  | nil => exact h
  | cons r rs ih => exact ih _ (apply_request_preserves_inv s h r)

theorem mpu6050_probe_inv (place : Int) : reachable_inv (mpu6050_probe place) :=
  ⟨rfl, rfl⟩

/-- C1: after every finite sequence of interleaved enable/disable/set-interval
requests on both channels, starting from the probed state, the cached power
flag is true exactly when at least one channel engine is in its enabled
state. -/
theorem power_invariant_any_sequence (place : Int) (rs : List sensor_request) :
    (run_requests (mpu6050_probe place) rs).power_enabled = true ↔
      ((run_requests (mpu6050_probe place) rs).cfg.gyro_enable = true ∨
       (run_requests (mpu6050_probe place) rs).cfg.accel_enable = true) := by
  have h := run_requests_preserves_inv rs (mpu6050_probe place) (mpu6050_probe_inv place)
  unfold reachable_inv power_flag_consistent at h
  rw [h.2]
  simp [Bool.or_eq_true]

/-- C10: mpu6050_power_ctl always returns 0 (so the power-up-failure branches
testing ret < 0 in the enable paths can never be taken), leaves the power
flag equal to the requested value, and is a no-op when the flag already holds
the requested value. -/
theorem power_ctl_total_and_idempotent (s : mpu6050_sensor) (en : Bool) :
    (mpu6050_power_ctl s en).1 = 0 ∧
    ¬ (mpu6050_power_ctl s en).1 < 0 ∧
    (mpu6050_power_ctl s en).2.power_enabled = en ∧
    (s.power_enabled = en → (mpu6050_power_ctl s en).2 = s) := by
  unfold mpu6050_power_ctl
  refine ⟨rfl, by norm_num, ?_, ?_⟩
  · cases en <;> cases hp : s.power_enabled <;> simp [hp]
  · intro hp
    cases en <;> simp_all

/-- Witness for power_ctl_total_and_idempotent at the probed state, asking
for power off while it already is off. -/
theorem power_ctl_total_and_idempotent_witness :
    (mpu6050_power_ctl (mpu6050_probe 0) false).1 = 0 ∧
    ¬ (mpu6050_power_ctl (mpu6050_probe 0) false).1 < 0 ∧
    (mpu6050_power_ctl (mpu6050_probe 0) false).2.power_enabled = false ∧
    (mpu6050_power_ctl (mpu6050_probe 0) false).2 = mpu6050_probe 0 := by
  have h := power_ctl_total_and_idempotent (mpu6050_probe 0) false
  exact ⟨h.1, h.2.1, h.2.2.1, h.2.2.2 (by decide)⟩

/-- Freshly probed state with the chip additionally marked asleep: both
channels disabled and the power flag down, but every engine switch will be
rejected as busy. -/
def asleep_disabled_state : mpu6050_sensor :=
  { mpu6050_probe 0 with cfg := { (mpu6050_probe 0).cfg with is_asleep := true } }

/-- C2 counterexample: from a both-channels-disabled, power-off state (chip
marked asleep), enabling the accelerometer fails with a negative code and
leaves the channel disabled, yet the power flag stays raised: power_on is not
rolled back to agree with the actual channel states. -/
theorem enable_failure_power_not_rolled_back_cex :
    (mpu6050_accel_set_enable asleep_disabled_state true).1 < 0 ∧
    (mpu6050_accel_set_enable asleep_disabled_state true).2.cfg.accel_enable = false ∧
    (mpu6050_accel_set_enable asleep_disabled_state true).2.cfg.gyro_enable = false ∧
    (mpu6050_accel_set_enable asleep_disabled_state true).2.power_enabled = true := by
  decide

/-- C2 amended: from any both-channels-disabled state, a failing enable on
either channel returns an error and leaves that channel's state Disabled, but
the power flag is left raised (the power-up is not rolled back), so power_on
does not agree with the channel states after the failure. -/
theorem enable_failure_rollback_amended (s : mpu6050_sensor)
    (ha : s.cfg.accel_enable = false) (hg : s.cfg.gyro_enable = false) :
    ((mpu6050_accel_set_enable s true).1 < 0 →
      (mpu6050_accel_set_enable s true).2.cfg.accel_enable = false ∧
      (mpu6050_accel_set_enable s true).2.power_enabled = true) ∧
    ((mpu6050_gyro_set_enable s true).1 < 0 →
      (mpu6050_gyro_set_enable s true).2.cfg.gyro_enable = false ∧
      (mpu6050_gyro_set_enable s true).2.power_enabled = true) := by
  obtain ⟨⟨l, rd, lf, e, ae, ge2, ia⟩, ax, gp, ap, aen, gen, up, ba, bg, acp, auc,
    pe, gw, aw, gdc, adc, gt, att, wui, pl⟩ := s
  cases ia <;> cases pe <;> cases ba <;> cases bg <;>
    simp_all [mpu6050_accel_set_enable, mpu6050_gyro_set_enable, mpu6050_accel_enable,
      mpu6050_gyro_enable, mpu6050_config_sample_rate, mpu6050_power_ctl,
      mpu6050_power_up_seq, mpu6050_restore_context, mpu6050_set_lpa_freq,
      mpu6050_reset_chip, EINVAL, EBUSY, apply_ite]

/-- Witness for enable_failure_rollback_amended at the asleep probed state. -/
theorem enable_failure_rollback_amended_witness :
    (mpu6050_accel_set_enable asleep_disabled_state true).2.cfg.accel_enable = false ∧
    (mpu6050_accel_set_enable asleep_disabled_state true).2.power_enabled = true :=
  (enable_failure_rollback_amended asleep_disabled_state (by decide) (by decide)).1
    (by decide)

/-- Concrete state with calibration enabled and a nonzero x bias: probed with
orientation 0, acc_use_cal raised, bias (100, 0, 0), shared reading x = 5. -/
def cal_enabled_state : mpu6050_sensor :=
  { mpu6050_probe 0 with
    acc_use_cal := true
    acc_cal_params := (100, 0, 0)
    axis := ⟨5, 0, 0, 0, 0, 0⟩ }

/-- C5 counterexample: with calibration enabled and bias (100, 0, 0), the
accelerometer worker publishes the bare remapped reading (5, 0, 0); the bias
is neither subtracted nor added after the placement transform. -/
theorem accel_worker_ignores_calibration_cex :
    cal_enabled_state.acc_use_cal = true ∧
    (accel_poll_thread_step cal_enabled_state).2 = (5, 0, 0) ∧
    (accel_poll_thread_step cal_enabled_state).2 ≠ ((5 : Int) - 100, 0, 0) ∧
    (accel_poll_thread_step cal_enabled_state).2 ≠ ((5 : Int) + 100, 0, 0) := by
  decide

/-- C5 amended: every sample published by the accelerometer worker is exactly
the placement-transformed shared reading with no calibration bias applied,
even in states where calibration is enabled — the worker never consults
acc_use_cal or acc_cal_params. -/
theorem accel_worker_publishes_remap_only (s : mpu6050_sensor)
    (h : s.acc_use_cal = true) :
    (accel_poll_thread_step s).2 =
      ((mpu6050_remap_accel_data s.axis s.place).x,
       (mpu6050_remap_accel_data s.axis s.place).y,
       (mpu6050_remap_accel_data s.axis s.place).z) := by
  unfold accel_poll_thread_step set_wake_up_idle
  dsimp only
  split_ifs <;> rfl

/-- Witness for accel_worker_publishes_remap_only at the calibration-enabled
state. -/
theorem accel_worker_publishes_remap_only_witness :
    (accel_poll_thread_step cal_enabled_state).2 =
      ((mpu6050_remap_accel_data cal_enabled_state.axis cal_enabled_state.place).x,
       (mpu6050_remap_accel_data cal_enabled_state.axis cal_enabled_state.place).y,
       (mpu6050_remap_accel_data cal_enabled_state.axis cal_enabled_state.place).z) :=
  accel_worker_publishes_remap_only cal_enabled_state (by decide)

/-- Concrete state with the gyroscope enabled in polling mode at the default
200 ms interval and its one-shot timer armed for 200 ms. -/
def gyro_running_state : mpu6050_sensor :=
  { mpu6050_probe 0 with
    gyro_en := true
    power_enabled := true
    cfg := { (mpu6050_probe 0).cfg with gyro_enable := true, enable := true }
    gyro_timer := some 200 }

/-- C8 counterexample: set_poll_delay(gyro, 5) on the running gyro clamps the
stored interval to 10 ms and marks the pending change, but the armed timer
still holds the previous 200 ms expiry — it is not cancelled and re-armed
immediately with the new interval. -/
theorem gyro_set_poll_delay_no_immediate_rearm_cex :
    gyro_running_state.gyro_en = true ∧
    gyro_running_state.use_poll = true ∧
    (mpu6050_gyro_set_poll_delay gyro_running_state 5).2.gyro_poll_ms = 10 ∧
    (mpu6050_gyro_set_poll_delay gyro_running_state 5).2.gyro_delay_change = true ∧
    (mpu6050_gyro_set_poll_delay gyro_running_state 5).2.gyro_timer = some 200 ∧
    (some 200 : Option ℕ) ≠ some 10 := by
  decide

/-- C8 amended: set_poll_delay(gyro, 5) clamps to the 10 ms minimum and sets
the pending-interval-change flag, but leaves the armed timer untouched; the
10 ms cadence only begins when the pending one-shot timer next fires and its
callback re-arms itself with the updated interval. -/
theorem gyro_set_poll_delay_clamps_lazy_rearm (s : mpu6050_sensor)
    (hen : s.gyro_en = true) (hne : s.gyro_poll_ms ≠ 10) :
    (mpu6050_gyro_set_poll_delay s 5).2.gyro_poll_ms = 10 ∧
    (mpu6050_gyro_set_poll_delay s 5).2.gyro_delay_change = true ∧
    (mpu6050_gyro_set_poll_delay s 5).2.gyro_timer = s.gyro_timer ∧
    (gyro_timer_handle (mpu6050_gyro_set_poll_delay s 5).2).gyro_timer = some 10 := by
  unfold mpu6050_gyro_set_poll_delay gyro_timer_handle mpu6050_manage_polling_gyro
    MPU6050_GYRO_MIN_POLL_INTERVAL_MS MPU6050_GYRO_MAX_POLL_INTERVAL_MS
  dsimp only
  norm_num
  rw [if_neg hne]
  simp [hen]

/-- Witness for gyro_set_poll_delay_clamps_lazy_rearm at the running gyro
state. -/
theorem gyro_set_poll_delay_clamps_lazy_rearm_witness :
    (mpu6050_gyro_set_poll_delay gyro_running_state 5).2.gyro_poll_ms = 10 ∧
    (mpu6050_gyro_set_poll_delay gyro_running_state 5).2.gyro_delay_change = true ∧
    (mpu6050_gyro_set_poll_delay gyro_running_state 5).2.gyro_timer =
      gyro_running_state.gyro_timer ∧
    (gyro_timer_handle (mpu6050_gyro_set_poll_delay gyro_running_state 5).2).gyro_timer =
      some 10 :=
  gyro_set_poll_delay_clamps_lazy_rearm gyro_running_state (by decide) (by decide)

/-- C9 at the failing input: asking either channel for the interval it
already stores (200 ms at the probed state) changes nothing, and the gyro
path returns 0, but the accel path returns its never-assigned local ret —
modelled by the arbitrary junk value below — rather than a defined 0. -/
theorem set_poll_delay_noop_uninitialized_return (junk : Int) :
    (mpu6050_accel_set_poll_delay (mpu6050_probe 0) 200 junk).1 = junk ∧
    (mpu6050_accel_set_poll_delay (mpu6050_probe 0) 200 junk).2 = mpu6050_probe 0 ∧
    (mpu6050_gyro_set_poll_delay (mpu6050_probe 0) 200).1 = 0 ∧
    (mpu6050_gyro_set_poll_delay (mpu6050_probe 0) 200).2 = mpu6050_probe 0 :=
  ⟨rfl, rfl, rfl, rfl⟩
